import Mathlib

/-!
# Verification of the auth / rate-limiting layer of the UK Road Safety API

Shallow embedding of `src/api/auth.py`: key validation (`validate_api_key`),
the fixed-window quota tracker (`check_rate_limit`), the two route guards
(`require_api_key`, `optional_api_key`) and the response middleware
(`RateLimitMiddleware.dispatch`), together with theorems settling the
spec claims about them.

Numbers: Python mixes ints with the float sentinel `float('inf')` for the
unlimited tier, so quota quantities are embedded as `PyNum` (an integer or
infinity).  Timestamps are natural-number seconds.
-/

namespace RoadSafety

/-- A Python numeric quota value: an integer, or the `float('inf')` sentinel
used for the `unlimited` tier. -/
inductive PyNum where
  | int : Int → PyNum
  | inf : PyNum
deriving DecidableEq, Repr

/-- `limit - count` for a Python quota value (`inf - n = inf`). -/
def PyNum.subNat : PyNum → Nat → PyNum
  | .int n, c => .int (n - (c : Int))
  | .inf, _ => .inf

/-- Python `max(0, x)` on a quota value. -/
def PyNum.max0 : PyNum → PyNum
  | .int n => .int (max 0 n)
  | .inf => .inf

/-- Python `count >= limit` where `count` is an int and `limit` may be `inf`. -/
def PyNum.natGe (c : Nat) : PyNum → Bool
  | .int n => decide (n ≤ (c : Int))
  | .inf => false

/-- Python `x - 1` on a quota value (`inf - 1 = inf`). -/
def PyNum.sub1 : PyNum → PyNum
  | .int n => .int (n - 1)
  | .inf => .inf

/-- Python `str(x)` for a quota value (`str(float('inf')) = "inf"`). -/
def PyNum.toStr : PyNum → String
  | .int n => toString n
  | .inf => "inf"

/-- `RATE_LIMIT_WINDOW = 3600` (one hour, in seconds). -/
def RATE_LIMIT_WINDOW : Nat := 3600

/-- `RATE_LIMITS.get(tier, RATE_LIMITS["free"])`: the per-tier ceilings, with
the `free` ceiling as the default for unknown tier strings. -/
def RATE_LIMITS (tier : String) : PyNum :=
  if tier = "free" then .int 100
  else if tier = "developer" then .int 5000
  else if tier = "professional" then .int 25000
  else if tier = "unlimited" then .inf
  else .int 100

/-- One entry of `_rate_limit_store`: a fixed quota window. -/
structure Window where
  count : Nat
  reset_at : Nat
deriving DecidableEq, Repr

/-- `_rate_limit_store` is a `defaultdict` whose default entry is
`{"count": 0, "reset_at": 0}`; embedded as a total map. -/
def RateStore : Type := String → Window

/-- A fresh `_rate_limit_store` (every key at the defaultdict default). -/
def emptyStore : RateStore := fun _ => { count := 0, reset_at := 0 }

/-- Point update of the rate-limit store. -/
def updateStore (s : RateStore) (k : String) (w : Window) : RateStore :=
  fun k' => if k' = k then w else s k'

/-- The `(allowed, remaining, reset_at)` triple returned by `check_rate_limit`. -/
structure CheckResult where
  allowed : Bool
  remaining : PyNum
  reset_at : Nat
deriving DecidableEq, Repr

/-- `check_rate_limit(rate_limit_key, tier)` at time `now`, acting on the
store: resets the window when `now > reset_at`, denies without incrementing
when `count >= limit`, otherwise increments and reports `remaining - 1`. -/
def check_rate_limit (store : RateStore) (rate_limit_key tier : String)
    (now : Nat) : CheckResult × RateStore :=
  let w0 := store rate_limit_key
  let w := if now > w0.reset_at then
             { count := 0, reset_at := now + RATE_LIMIT_WINDOW } else w0
  let limit := RATE_LIMITS tier
  let remaining := (limit.subNat w.count).max0
  if PyNum.natGe w.count limit then
    (⟨false, .int 0, w.reset_at⟩, updateStore store rate_limit_key w)
  else
    (⟨true, remaining.sub1, w.reset_at⟩,
     updateStore store rate_limit_key { w with count := w.count + 1 })

/-- A key-info dict as built by `validate_api_key`: demo keys and legacy
`api_keys` rows carry no `user_id`; `users` rows do.  The public bypass
dict carries neither `active` nor `user_id`. -/
structure KeyInfo where
  key : String
  tier : String
  name : String
  active : Option Bool := none
  user_id : Option Int := none
deriving DecidableEq, Repr

/-- `DEMO_API_KEYS`: the static demo registry, mapping a key string to its
`(tier, name, active)` entry. -/
def DEMO_API_KEYS (k : String) : Option (String × String × Bool) :=
  if k = "demo-key-free" then some ("free", "Demo Free", true)
  else if k = "demo-key-dev" then some ("developer", "Demo Developer", true)
  else if k = "demo-key-pro" then some ("professional", "Demo Professional", true)
  else if k = "admin-key-unlimited" then some ("unlimited", "Admin", true)
  else none

/-- `_api_keys_cache`: maps a cache key to a cached key-info together with
the `cached_at` timestamp. -/
def KeyCache : Type := String → Option (KeyInfo × Nat)

/-- An empty `_api_keys_cache`. -/
def emptyCache : KeyCache := fun _ => none

/-- `_cache_ttl = 300` seconds (5 minutes). -/
def cache_ttl : Nat := 300

/-- The external database, as an oracle for the two SQL lookups of
`validate_api_key`.  `Except.error` models any exception raised while
querying (connectivity failure, missing table, ...); `Except.ok none`
models a query that runs but matches no active row; `Except.ok (some row)`
is the matched active row.  The `users` row is
`(api_key, tier, name, is_active, id)`; the legacy `api_keys` row is
`(api_key, tier, name, active)`. -/
structure DB where
  usersLookup : String → Except Unit (Option (String × String × String × Bool × Int))
  apiKeysLookup : String → Except Unit (Option (String × String × String × Bool))

/-- The `try`-block of `validate_api_key`: primary (`users`) lookup, then
secondary (`api_keys`) lookup, any raised exception swallowed to `none`;
a successful lookup writes through to the cache. -/
def db_lookup (db : DB) (cache : KeyCache) (api_key : String) (now : Nat) :
    Option KeyInfo × KeyCache :=
  let cache_key := "apikey_" ++ api_key
  match db.usersLookup api_key with
  | .error _ => (none, cache)
  | .ok (some (k, tier, name, act, uid)) =>
      let info : KeyInfo :=
        { key := k, tier := tier, name := name, active := some act,
          user_id := some uid }
      (some info, fun c => if c = cache_key then some (info, now) else cache c)
  | .ok none =>
      match db.apiKeysLookup api_key with
      | .error _ => (none, cache)
      | .ok (some (k, tier, name, act)) =>
          let info : KeyInfo :=
            { key := k, tier := tier, name := name, active := some act }
          (some info, fun c => if c = cache_key then some (info, now) else cache c)
      | .ok none => (none, cache)

/-- `validate_api_key(api_key)` at time `now`: empty key fails; demo keys
are answered from the static registry; then a fresh cache entry
(`now - cached_at < _cache_ttl`) is served; otherwise the database is
consulted via `db_lookup`. -/
def validate_api_key (db : DB) (cache : KeyCache) (api_key : String)
    (now : Nat) : Option KeyInfo × KeyCache :=
  if api_key = "" then (none, cache)
  else
    match DEMO_API_KEYS api_key with
    | some (tier, name, act) =>
        if act then
          (some { key := api_key, tier := tier, name := name,
                  active := some act }, cache)
        else (none, cache)
    | none =>
        let cache_key := "apikey_" ++ api_key
        match cache cache_key with
        | some (cached, cached_at) =>
            if now - cached_at < cache_ttl then (some cached, cache)
            else db_lookup db cache api_key now
        | none => db_lookup db cache api_key now

/-- The parts of an inbound HTTP request that the auth layer reads. -/
structure Request where
  path : String
  header_api_key : Option String := none
  query_api_key : Option String := none
  dashboard_header : Option String := none
  client_ip : Option String := none
  method : String := "GET"
deriving DecidableEq, Repr

/-- Python's `a or b` on optional strings: `a` unless it is `None` or `""`. -/
def pyOrStr : Option String → Option String → Option String
  | some s, b => if s = "" then b else some s
  | none, b => b

/-- Python truthiness of an optional string. -/
def isTruthy : Option String → Bool
  | some s => !(s = "")
  | none => false

/-- `get_api_key`: header value, else query-parameter value. -/
def get_api_key (req : Request) : Option String :=
  pyOrStr req.header_api_key req.query_api_key

/-- The quota-tracking key: `f"user_{uid}"` when `key_info.get('user_id')`
is truthy (a present, non-zero id — Python treats `0` as falsy), else the
raw key string. -/
def rate_limit_key_of (info : KeyInfo) (api_key : String) : String :=
  match info.user_id with
  | some uid => if uid = 0 then api_key else "user_" ++ toString uid
  | none => api_key

/-- An `HTTPException` raised by a route guard. -/
structure HTTPError where
  status : Nat
  detail : String
  headers : List (String × String)
deriving DecidableEq, Repr

/-- `request.state` fields the auth layer sets; `none` means the attribute
was never assigned (`hasattr` false). -/
structure RequestState where
  api_key : Option String := none
  tier : Option String := none
  user_id : Option (Option Int) := none
  is_dashboard : Option Bool := none
  rate_limit_remaining : Option PyNum := none
  rate_limit_reset : Option Nat := none
  rate_limit_limit : Option PyNum := none
deriving DecidableEq, Repr

/-- A request state with nothing assigned. -/
def emptyState : RequestState := {}

/-- The unauthenticated public allowlist of `require_api_key`. -/
def PUBLIC_PATHS : List String := ["/health", "/", "/docs", "/redoc", "/openapi.json"]

/-- Abstraction of Python's
`datetime.fromtimestamp(ts).isoformat()` used only inside a human-readable
detail string; no theorem depends on its value. -/
def datetime_isoformat (ts : Nat) : String := toString ts

/-- Outcome of a route-guard dependency: the returned key-info dict, the
request state it assigned, and the updated quota store and key cache. -/
structure GuardOut where
  result : Except HTTPError KeyInfo
  state : RequestState
  store : RateStore
  cache : KeyCache

/-- `require_api_key`: public allowlist bypass; 401 on a missing or invalid
credential; dashboard-flagged requests skip the quota check; otherwise the
quota is checked under `rate_limit_key_of` and a denial raises 429 with
rate-limit headers. -/
def require_api_key (db : DB) (req : Request) (store : RateStore)
    (cache : KeyCache) (now : Nat) : GuardOut :=
  if req.path ∈ PUBLIC_PATHS then
    { result := .ok { key := "public", tier := "free", name := "Public" },
      state := emptyState, store := store, cache := cache }
  else
    let api_key := get_api_key req
    if ¬ isTruthy api_key then
      { result := .error
          { status := 401,
            detail := "API key required. Include 'X-API-Key' header or 'api_key' query parameter.",
            headers := [("WWW-Authenticate", "API key required")] },
        state := emptyState, store := store, cache := cache }
    else
      let key := api_key.getD ""
      match validate_api_key db cache key now with
      | (none, cache') =>
          { result := .error
              { status := 401, detail := "Invalid API key",
                headers := [("WWW-Authenticate", "API key invalid")] },
            state := emptyState, store := store, cache := cache' }
      | (some key_info, cache') =>
          let is_dashboard := req.dashboard_header = some "true"
          let st0 : RequestState :=
            { api_key := some key, tier := some key_info.tier,
              user_id := some key_info.user_id,
              is_dashboard := some is_dashboard }
          if is_dashboard then
            let limit := RATE_LIMITS key_info.tier
            let st : RequestState :=
              { st0 with
                rate_limit_remaining :=
                  some (match limit with | .int n => .int n | .inf => .int 999999),
                rate_limit_reset := some (now + 3600),
                rate_limit_limit := some limit }
            { result := .ok key_info, state := st, store := store, cache := cache' }
          else
            let rlk := rate_limit_key_of key_info key
            let (res, store') := check_rate_limit store rlk key_info.tier now
            let st : RequestState :=
              { st0 with
                rate_limit_remaining := some res.remaining,
                rate_limit_reset := some res.reset_at,
                rate_limit_limit := some (RATE_LIMITS key_info.tier) }
            if ¬ res.allowed then
              { result := .error
                  { status := 429,
                    detail := "Rate limit exceeded. Resets at "
                      ++ datetime_isoformat res.reset_at,
                    headers :=
                      [("X-RateLimit-Limit", (RATE_LIMITS key_info.tier).toStr),
                       ("X-RateLimit-Remaining", "0"),
                       ("X-RateLimit-Reset", toString res.reset_at),
                       ("Retry-After", toString (res.reset_at - now))] },
                state := st, store := store', cache := cache' }
            else
              { result := .ok key_info, state := st, store := store', cache := cache' }

/-- The anonymous tail of `optional_api_key`: IP-keyed free-tier quota. -/
def optional_anonymous (req : Request) (store : RateStore) (cache : KeyCache)
    (now : Nat) : GuardOut :=
  let client_ip := req.client_ip.getD "unknown"
  let anonymous_key := "anon_" ++ client_ip
  let (res, store') := check_rate_limit store anonymous_key "free" now
  let st : RequestState :=
    { rate_limit_remaining := some res.remaining,
      rate_limit_reset := some res.reset_at,
      rate_limit_limit := some (RATE_LIMITS "free"),
      api_key := some anonymous_key, tier := some "free" }
  if ¬ res.allowed then
    { result := .error
        { status := 429,
          detail := "Rate limit exceeded. Get an API key for higher limits.",
          headers := [] },
      state := st, store := store', cache := cache }
  else
    { result := .ok { key := anonymous_key, tier := "free", name := "Anonymous" },
      state := st, store := store', cache := cache }

/-- `optional_api_key`: a valid credential is quota-checked under
`rate_limit_key_of` (429 on denial, no reset info in the exception); an
absent or unresolvable credential falls through to the anonymous
IP-bucketed path.  The `X-Dashboard` header is never consulted. -/
def optional_api_key (db : DB) (req : Request) (store : RateStore)
    (cache : KeyCache) (now : Nat) : GuardOut :=
  let api_key := get_api_key req
  if isTruthy api_key then
    let key := api_key.getD ""
    match validate_api_key db cache key now with
    | (some key_info, cache') =>
        let rlk := rate_limit_key_of key_info key
        let (res, store') := check_rate_limit store rlk key_info.tier now
        let st : RequestState :=
          { rate_limit_remaining := some res.remaining,
            rate_limit_reset := some res.reset_at,
            rate_limit_limit := some (RATE_LIMITS key_info.tier),
            api_key := some key, tier := some key_info.tier }
        if ¬ res.allowed then
          { result := .error
              { status := 429, detail := "Rate limit exceeded", headers := [] },
            state := st, store := store', cache := cache' }
        else
          { result := .ok key_info, state := st, store := store', cache := cache' }
    | (none, cache') => optional_anonymous req store cache' now
  else optional_anonymous req store cache now

/-- An HTTP response as the middleware sees it. -/
structure Response where
  status : Nat
  detail : String
  headers : List (String × String)
deriving DecidableEq, Repr

/-- Header lookup; later-set (front) entries shadow earlier ones. -/
def lookupHeader (hs : List (String × String)) (name : String) : Option String :=
  (hs.find? (fun p => p.1 = name)).map Prod.snd

/-- `RateLimitMiddleware.dispatch` after `call_next`: adds the three
`X-RateLimit-*` headers when the state carries quota info, and decides
whether `log_api_usage` is invoked (`api_key and not is_dashboard`).
Returns the finalized response and the logging decision. -/
def middleware_finalize (req : Request) (resp : Response)
    (st : RequestState) : Response × Bool :=
  let api_key := pyOrStr req.header_api_key req.query_api_key
  let is_dashboard := req.dashboard_header = some "true"
  let resp' :=
    match st.rate_limit_remaining with
    | some r =>
        { resp with headers :=
            ("X-RateLimit-Limit", ((st.rate_limit_limit).getD (.int 0)).toStr)
            :: ("X-RateLimit-Remaining", r.toStr)
            :: ("X-RateLimit-Reset", toString ((st.rate_limit_reset).getD 0))
            :: resp.headers }
    | none => resp
  (resp', isTruthy api_key && !is_dashboard)

/-- The full outcome of one request through the middleware-wrapped pipeline. -/
structure PipelineOut where
  response : Response
  state : RequestState
  store : RateStore
  cache : KeyCache
  logged : Bool
  auth : Except HTTPError KeyInfo

/-- Glue a guard outcome and a handler status into a pipeline outcome: on a
guard rejection the `HTTPException` becomes the response, otherwise the
handler's response passes through; the middleware then finalizes it. -/
def run_pipeline (req : Request) (g : GuardOut) (handler_status : Nat) :
    PipelineOut :=
  let inner : Response :=
    match g.result with
    | .error e => { status := e.status, detail := e.detail, headers := e.headers }
    | .ok _ => { status := handler_status, detail := "", headers := [] }
  let (resp, logged) := middleware_finalize req inner g.state
  { response := resp, state := g.state, store := g.store, cache := g.cache,
    logged := logged, auth := g.result }

/-- A required-auth route behind the middleware. -/
def require_pipeline (db : DB) (req : Request) (store : RateStore)
    (cache : KeyCache) (now : Nat) (handler_status : Nat) : PipelineOut :=
  run_pipeline req (require_api_key db req store cache now) handler_status

/-- An optional-auth route behind the middleware. -/
def optional_pipeline (db : DB) (req : Request) (store : RateStore)
    (cache : KeyCache) (now : Nat) (handler_status : Nat) : PipelineOut :=
  run_pipeline req (optional_api_key db req store cache now) handler_status

/-- `N` consecutive `check_rate_limit` calls for one identity, at the given
list of timestamps; returns the final store and how many were allowed.
Each call is one atomic step: `check_rate_limit` is a synchronous function
with no suspension point, so concurrent requests serialize into such a
sequence. -/
def runList (store : RateStore) (key tier : String) : List Nat → RateStore × Nat
  | [] => (store, 0)
  | t :: ts =>
      let (res, s') := check_rate_limit store key tier t
      let (s'', a) := runList s' key tier ts
      (s'', (if res.allowed then 1 else 0) + a)

/-! ## Concrete scenario data used by counterexamples and witnesses -/

/-- A database in which both lookup queries run but match no row. -/
def dbNoRows : DB := ⟨fun _ => .ok none, fun _ => .ok none⟩

/-- A database whose primary (`users`) lookup raises on every query. -/
def dbErrPrimary : DB := ⟨fun _ => .error (), fun _ => .ok none⟩

/-- A database in which the key strings `rsk_a` and `rsk_b` both resolve to
the registered user with id `0`. -/
def dbUid0 : DB :=
  ⟨fun k => if k = "rsk_a" ∨ k = "rsk_b" then .ok (some (k, "free", "U", true, 0))
            else .ok none,
   fun _ => .ok none⟩

/-- A quota store in which every window is exhausted at 100 requests and
resets at time 5000. -/
def store100 : RateStore := fun _ => ⟨100, 5000⟩

/-- A store of fresh windows resetting at time 10000. -/
def storeFresh : RateStore := fun _ => ⟨0, 10000⟩

/-- A dashboard-flagged request with a valid demo credential. -/
def reqDash : Request :=
  { path := "/api/v1/accidents", header_api_key := some "demo-key-free",
    dashboard_header := some "true", client_ip := some "9.9.9.9" }

/-- A request carrying an unknown credential. -/
def reqBogus : Request :=
  { path := "/api/v1/accidents", header_api_key := some "bogus",
    client_ip := some "1.2.3.4" }

/-- A credential-less, non-dashboard request to a non-public route. -/
def reqAnonPlain : Request :=
  { path := "/api/v1/accidents", client_ip := some "1.2.3.4" }

/-- A credentialed request to a public-allowlist path. -/
def reqPubKeyed : Request :=
  { path := "/health", header_api_key := some "demo-key-free" }

/-- Requests with the credentials `rsk_a` / `rsk_b` of `dbUid0`. -/
def reqRskA : Request :=
  { path := "/api/v1/accidents", header_api_key := some "rsk_a",
    client_ip := some "1.1.1.1" }

/-- See `reqRskA`. -/
def reqRskB : Request :=
  { path := "/api/v1/accidents", header_api_key := some "rsk_b",
    client_ip := some "1.1.1.1" }

/-! ## Helper lemmas about the quota tracker -/

/-- Every tier admits a request on a fresh window: no ceiling is `<= 0`. -/
theorem natGe_zero_rate_limits (tier : String) :
    PyNum.natGe 0 (RATE_LIMITS tier) = false := by
  unfold RATE_LIMITS
  repeat' split
  all_goals rfl

/-- A `check_rate_limit` call inside a live window, under the ceiling:
allowed, reports `limit - count - 1`, increments the count. -/
theorem check_step_allowed (store : RateStore) (key tier : String)
    (now c r L : Nat) (hs : store key = ⟨c, r⟩) (hw : ¬ now > r)
    (hL : RATE_LIMITS tier = .int (L : Int)) (hc : c < L) :
    check_rate_limit store key tier now =
      (⟨true, .int ((L : Int) - c - 1), r⟩, updateStore store key ⟨c + 1, r⟩) := by
  have hd : decide ((L : Int) ≤ (c : Int)) = false := by
    simp only [decide_eq_false_iff_not]
    omega
  simp only [check_rate_limit, hs, hw, if_false, hL, PyNum.natGe, PyNum.subNat,
    PyNum.max0, PyNum.sub1, hd, Bool.false_eq_true]
  congr 3
  omega

/-- A `check_rate_limit` call inside a live window, at or above the ceiling:
denied with `remaining = 0`, count unchanged. -/
theorem check_step_denied (store : RateStore) (key tier : String)
    (now c r L : Nat) (hs : store key = ⟨c, r⟩) (hw : ¬ now > r)
    (hL : RATE_LIMITS tier = .int (L : Int)) (hc : L ≤ c) :
    check_rate_limit store key tier now =
      (⟨false, .int 0, r⟩, updateStore store key ⟨c, r⟩) := by
  have hd : decide ((L : Int) ≤ (c : Int)) = true := by
    simp only [decide_eq_true_eq]
    omega
  simp only [check_rate_limit, hs, hw, if_false, hL, PyNum.natGe, PyNum.subNat,
    PyNum.max0, PyNum.sub1, hd, if_true]

/-- The update of `check_rate_limit` touches only its own key. -/
theorem check_other_key (store : RateStore) (key tier : String) (now : Nat)
    (k' : String) (hk : k' ≠ key) :
    (check_rate_limit store key tier now).snd k' = store k' := by
  simp only [check_rate_limit]
  split <;> split <;> simp [updateStore, hk]

/-- The window written at the checked key carries exactly the `reset_at`
reported to the caller. -/
theorem check_reset_written (store : RateStore) (key tier : String) (now : Nat) :
    ((check_rate_limit store key tier now).snd key).reset_at
      = (check_rate_limit store key tier now).fst.reset_at := by
  simp only [check_rate_limit]
  split <;> split <;> simp [updateStore]

/-- The `reset_at` reported by `check_rate_limit` is never in the past. -/
theorem check_reset_not_past (store : RateStore) (key tier : String) (now : Nat) :
    ¬ now > (check_rate_limit store key tier now).fst.reset_at := by
  simp only [check_rate_limit]
  by_cases h : now > (store key).reset_at
  · simp only [h, if_true]
    split <;> simp [RATE_LIMIT_WINDOW]
  · simp only [h, if_false]
    split <;> simpa using h

/-- Defining equation of `runList` on a cons, with the pair match spelled
out through projections. -/
theorem runList_cons (store : RateStore) (key tier : String) (t : Nat)
    (ts : List Nat) :
    runList store key tier (t :: ts)
      = ((runList (check_rate_limit store key tier t).snd key tier ts).fst,
         (if (check_rate_limit store key tier t).fst.allowed then 1 else 0)
           + (runList (check_rate_limit store key tier t).snd key tier ts).snd) := by
  rcases h1 : check_rate_limit store key tier t with ⟨res, s'⟩
  rcases h2 : runList s' key tier ts with ⟨s'', a⟩
  simp [runList, h1, h2]

/-- Core fixed-window invariant: running a list of calls whose timestamps
all lie inside the live window `⟨c, r⟩` of `key` admits exactly
`min N (L - c)` of them, leaves the count at `min (c + N) (max c L)` with
the reset time untouched, and leaves every other key's window untouched. -/
theorem runList_within (key tier : String) (L : Nat)
    (hL : RATE_LIMITS tier = .int (L : Int)) :
    ∀ (ts : List Nat) (store : RateStore) (c r : Nat),
      store key = ⟨c, r⟩ → (∀ t ∈ ts, ¬ t > r) →
      (runList store key tier ts).snd = min ts.length (L - c) ∧
      (runList store key tier ts).fst key = ⟨min (c + ts.length) (max c L), r⟩ ∧
      ∀ k', k' ≠ key → (runList store key tier ts).fst k' = store k' := by
  intro ts
  induction ts with
  | nil =>
      intro store c r hs _
      refine ⟨by simp [runList], ?_, fun _ _ => rfl⟩
      show store key = _
      rw [hs]
      congr 1 <;> simp
  | cons t ts ih =>
      intro store c r hs hts
      have hwt : ¬ t > r := hts t (List.mem_cons_self t ts)
      have hts' : ∀ u ∈ ts, ¬ u > r := fun u hu => hts u (List.mem_cons_of_mem t hu)
      by_cases hc : c < L
      · have hstep := check_step_allowed store key tier t c r L hs hwt hL hc
        have hkey : (updateStore store key ⟨c + 1, r⟩) key = ⟨c + 1, r⟩ := by
          simp [updateStore]
        obtain ⟨h1, h2, h3⟩ :=
          ih (updateStore store key ⟨c + 1, r⟩) (c + 1) r hkey hts'
        refine ⟨?_, ?_, ?_⟩
        · rw [runList_cons, hstep]
          simp only [List.length_cons]
          simp [h1]
          omega
        · rw [runList_cons, hstep]
          show (runList (updateStore store key ⟨c + 1, r⟩) key tier ts).fst key = _
          rw [h2]
          simp only [List.length_cons]
          congr 1 <;> omega
        · intro k' hk'
          rw [runList_cons, hstep]
          show (runList (updateStore store key ⟨c + 1, r⟩) key tier ts).fst k' = store k'
          rw [h3 k' hk']
          simp [updateStore, hk']
      · have hstep := check_step_denied store key tier t c r L hs hwt hL (by omega)
        have hkey : (updateStore store key ⟨c, r⟩) key = ⟨c, r⟩ := by
          simp [updateStore]
        obtain ⟨h1, h2, h3⟩ := ih (updateStore store key ⟨c, r⟩) c r hkey hts'
        refine ⟨?_, ?_, ?_⟩
        · rw [runList_cons, hstep]
          simp only [List.length_cons]
          simp [h1]
          omega
        · rw [runList_cons, hstep]
          show (runList (updateStore store key ⟨c, r⟩) key tier ts).fst key = _
          rw [h2]
          simp only [List.length_cons]
          congr 1 <;> omega
        · intro k' hk'
          rw [runList_cons, hstep]
          show (runList (updateStore store key ⟨c, r⟩) key tier ts).fst k' = store k'
          rw [h3 k' hk']
          simp [updateStore, hk']

/-- A quota store whose every window holds 98 consumed requests, resetting
at time 10000. -/
def store98 : RateStore := fun _ => ⟨98, 10000⟩

/-! ## Claim theorems -/

/-- C5: for every identity, a `check_rate_limit` call made strictly after
the stored window's `resetAt` is allowed and leaves the window with
`count = 1` and `resetAt = now + 3600` (the triggering request itself is
counted). -/
theorem quota_window_reset_after_expiry (store : RateStore) (key tier : String)
    (now : Nat) (h : now > (store key).reset_at) :
    (check_rate_limit store key tier now).fst.allowed = true ∧
    (check_rate_limit store key tier now).snd key
      = ⟨1, now + RATE_LIMIT_WINDOW⟩ ∧
    (check_rate_limit store key tier now).fst.reset_at
      = now + RATE_LIMIT_WINDOW := by
  refine ⟨?_, ?_, ?_⟩ <;>
    simp [check_rate_limit, h, natGe_zero_rate_limits, updateStore]

/-- Witness for `quota_window_reset_after_expiry` at a concrete expired
window. -/
theorem quota_window_reset_after_expiry_witness :
    (check_rate_limit emptyStore "k" "free" 50).fst.allowed = true ∧
    (check_rate_limit emptyStore "k" "free" 50).snd "k"
      = ⟨1, 50 + RATE_LIMIT_WINDOW⟩ ∧
    (check_rate_limit emptyStore "k" "free" 50).fst.reset_at
      = 50 + RATE_LIMIT_WINDOW :=
  quota_window_reset_after_expiry emptyStore "k" "free" 50 (by decide)

/-- C1: for every identity key and every tier with a finite ceiling `L`,
within one live quota window starting at count 0: all of the first `L`
calls are accepted, the `L`-th accepted call reports `remaining = 0`, and
the `(L+1)`-th call is denied with `remaining = 0` without incrementing
the stored count. -/
theorem rate_limit_exhaustion (store : RateStore) (key tier : String)
    (now r L : Nat) (hL : RATE_LIMITS tier = .int (L : Int)) (hpos : 0 < L)
    (hs : store key = ⟨0, r⟩) (hw : ¬ now > r) :
    (runList store key tier (List.replicate L now)).snd = L ∧
    (check_rate_limit (runList store key tier (List.replicate (L - 1) now)).fst
        key tier now).fst = ⟨true, .int 0, r⟩ ∧
    (check_rate_limit (runList store key tier (List.replicate L now)).fst
        key tier now).fst = ⟨false, .int 0, r⟩ ∧
    (check_rate_limit (runList store key tier (List.replicate L now)).fst
        key tier now).snd key
      = (runList store key tier (List.replicate L now)).fst key := by
  have hmem : ∀ n : Nat, ∀ t ∈ List.replicate n now, ¬ t > r := by
    intro n t htl
    rw [List.eq_of_mem_replicate htl]
    exact hw
  obtain ⟨hA1, hA2, _⟩ :=
    runList_within key tier L hL (List.replicate L now) store 0 r hs (hmem L)
  obtain ⟨_, hB2, _⟩ :=
    runList_within key tier L hL (List.replicate (L - 1) now) store 0 r hs
      (hmem (L - 1))
  have hA2' : (runList store key tier (List.replicate L now)).fst key
      = ⟨L, r⟩ := by
    rw [hA2]
    simp only [List.length_replicate]
    congr 1 <;> omega
  have hB2' : (runList store key tier (List.replicate (L - 1) now)).fst key
      = ⟨L - 1, r⟩ := by
    rw [hB2]
    simp only [List.length_replicate]
    congr 1 <;> omega
  refine ⟨?_, ?_, ?_, ?_⟩
  · rw [hA1]
    simp only [List.length_replicate]
    omega
  · rw [check_step_allowed _ key tier now (L - 1) r L hB2' hw hL (by omega)]
    simp only [CheckResult.mk.injEq, PyNum.int.injEq]
    refine ⟨trivial, ?_, trivial⟩
    omega
  · rw [check_step_denied _ key tier now L r L hA2' hw hL (by omega)]
  · rw [check_step_denied _ key tier now L r L hA2' hw hL (by omega)]
    rw [hA2']
    simp [updateStore]

/-- Witness for `rate_limit_exhaustion`: the free tier (`L = 100`) on a
fresh window. -/
theorem rate_limit_exhaustion_witness :
    (runList storeFresh "k" "free" (List.replicate 100 500)).snd = 100 ∧
    (check_rate_limit (runList storeFresh "k" "free" (List.replicate 99 500)).fst
        "k" "free" 500).fst = ⟨true, .int 0, 10000⟩ ∧
    (check_rate_limit (runList storeFresh "k" "free" (List.replicate 100 500)).fst
        "k" "free" 500).fst = ⟨false, .int 0, 10000⟩ ∧
    (check_rate_limit (runList storeFresh "k" "free" (List.replicate 100 500)).fst
        "k" "free" 500).snd "k"
      = (runList storeFresh "k" "free" (List.replicate 100 500)).fst "k" :=
  rate_limit_exhaustion storeFresh "k" "free" 500 10000 100 rfl (by decide)
    rfl (by decide)

/-- C9: for a single identity with `k = L - c` remaining slots in a live
window, any serialization of `N > k` requests (each `check_rate_limit`
call is one atomic step: the function has no suspension point between its
ceiling check and its increment, so concurrent requests on the event loop
serialize into consecutive calls) admits exactly `k` and denies exactly
`N - k`. -/
theorem concurrent_exact_admission (store : RateStore) (key tier : String)
    (ts : List Nat) (c r L k : Nat)
    (hL : RATE_LIMITS tier = .int (L : Int)) (hs : store key = ⟨c, r⟩)
    (ht : ∀ t ∈ ts, ¬ t > r) (hk : k = L - c) (hN : k < ts.length) :
    (runList store key tier ts).snd = k ∧
    ts.length - (runList store key tier ts).snd = ts.length - k := by
  obtain ⟨h1, _, _⟩ := runList_within key tier L hL ts store c r hs ht
  rw [h1]
  omega

/-- Witness for `concurrent_exact_admission`: five requests against two
remaining free-tier slots. -/
theorem concurrent_exact_admission_witness :
    (runList store98 "k" "free" [500, 600, 700, 800, 900]).snd = 2 ∧
    ([500, 600, 700, 800, 900] : List Nat).length
        - (runList store98 "k" "free" [500, 600, 700, 800, 900]).snd
      = ([500, 600, 700, 800, 900] : List Nat).length - 2 :=
  concurrent_exact_admission store98 "k" "free" [500, 600, 700, 800, 900]
    98 10000 100 2 rfl rfl (by decide) rfl (by decide)

/-- Whether `_api_keys_cache` holds a fresh (non-expired) entry for a key. -/
def cacheFresh (cache : KeyCache) (api_key : String) (now : Nat) : Bool :=
  match cache ("apikey_" ++ api_key) with
  | some (_, cached_at) => now - cached_at < cache_ttl
  | none => false

/-- Remove one entry from the key cache. -/
def cacheErase (cache : KeyCache) (k : String) : KeyCache :=
  fun c => if c = k then none else cache c

/-- The resolved identity returned by `db_lookup` does not depend on the
incoming cache contents (the cache is only written through). -/
theorem db_lookup_fst_cache (db : DB) (api_key : String) (now : Nat)
    (c1 c2 : KeyCache) :
    (db_lookup db c1 api_key now).fst = (db_lookup db c2 api_key now).fst := by
  simp only [db_lookup]
  cases db.usersLookup api_key with
  | error e => rfl
  | ok o =>
      cases o with
      | some row => obtain ⟨k, tier, name, act, uid⟩ := row; rfl
      | none =>
          cases db.apiKeysLookup api_key with
          | error e => rfl
          | ok o2 =>
              cases o2 with
              | some row => obtain ⟨k, tier, name, act⟩ := row; rfl
              | none => rfl

/-- A stale `KeyInfo` for the witness scenarios. -/
def infoStale : KeyInfo := ⟨"oldkey", "free", "Old", some true, none⟩

/-- A cache holding exactly one entry, cached at time 0. -/
def cacheStale : KeyCache :=
  fun c => if c = "apikey_oldkey" then some (infoStale, 0) else none

/-- C7: a cached key-lookup entry whose age has reached the 300-second TTL
is never served: resolution of a non-demo key falls through to the
backing-store lookup, and the resolved identity is the same as if the
stale entry were absent altogether. -/
theorem stale_cache_never_served (db : DB) (cache : KeyCache)
    (api_key : String) (now : Nat) (info : KeyInfo) (t : Nat)
    (hc : cache ("apikey_" ++ api_key) = some (info, t))
    (hstale : ¬ now - t < cache_ttl) :
    (DEMO_API_KEYS api_key = none → api_key ≠ "" →
      validate_api_key db cache api_key now = db_lookup db cache api_key now) ∧
    (validate_api_key db cache api_key now).fst
      = (validate_api_key db (cacheErase cache ("apikey_" ++ api_key))
          api_key now).fst := by
  constructor
  · intro hdemo hne
    simp only [validate_api_key, if_neg hne, hdemo, hc, hstale, if_false]
  · by_cases hne : api_key = ""
    · simp [validate_api_key, hne]
    · cases hdemo : DEMO_API_KEYS api_key with
      | some v =>
          obtain ⟨tier, name, act⟩ := v
          simp only [validate_api_key, if_neg hne, hdemo]
          split <;> rfl
      | none =>
          have hre : cacheErase cache ("apikey_" ++ api_key)
              ("apikey_" ++ api_key) = none := by
            simp [cacheErase]
          simp only [validate_api_key, if_neg hne, hdemo, hc, hstale, if_false,
            hre]
          exact db_lookup_fst_cache db api_key now cache
            (cacheErase cache ("apikey_" ++ api_key))

/-- Witness for `stale_cache_never_served`: an entry cached at time 0
queried at time 300 (age exactly the TTL) is not served. -/
theorem stale_cache_never_served_witness :
    validate_api_key dbNoRows cacheStale "oldkey" 300
      = db_lookup dbNoRows cacheStale "oldkey" 300 ∧
    (validate_api_key dbNoRows cacheStale "oldkey" 300).fst
      = (validate_api_key dbNoRows
          (cacheErase cacheStale ("apikey_" ++ "oldkey")) "oldkey" 300).fst :=
  ⟨(stale_cache_never_served dbNoRows cacheStale "oldkey" 300 infoStale 0
      rfl (by decide)).1 rfl (by decide),
   (stale_cache_never_served dbNoRows cacheStale "oldkey" 300 infoStale 0
      rfl (by decide)).2⟩

/-- C6: for a credential outside the demo registry with no fresh cache
entry, an error raised by the backing store during the primary or the
secondary lookup is swallowed: resolution yields no identity and the
required-auth gate rejects with `401 Invalid API key`, leaving the quota
store untouched. -/
theorem upstream_failure_fails_closed (db : DB) (req : Request)
    (store : RateStore) (cache : KeyCache) (now : Nat) (key : String)
    (hpath : req.path ∉ PUBLIC_PATHS)
    (hget : get_api_key req = some key) (hne : key ≠ "")
    (hdemo : DEMO_API_KEYS key = none)
    (hfresh : cacheFresh cache key now = false)
    (herr : db.usersLookup key = .error ()
            ∨ (db.usersLookup key = .ok none ∧ db.apiKeysLookup key = .error ())) :
    (validate_api_key db cache key now).fst = none ∧
    (require_api_key db req store cache now).result
      = .error ⟨401, "Invalid API key", [("WWW-Authenticate", "API key invalid")]⟩ ∧
    (require_api_key db req store cache now).store = store := by
  have hdb : ∀ c : KeyCache, (db_lookup db c key now).fst = none := by
    intro c
    rcases herr with h | ⟨h1, h2⟩
    · simp [db_lookup, h]
    · simp [db_lookup, h1, h2]
  have hval : (validate_api_key db cache key now).fst = none := by
    simp only [validate_api_key, if_neg hne, hdemo]
    cases hcc : cache ("apikey_" ++ key) with
    | none => exact hdb cache
    | some p =>
        obtain ⟨i, t⟩ := p
        have hns : ¬ now - t < cache_ttl := by
          simp only [cacheFresh, hcc, decide_eq_false_iff_not] at hfresh
          exact hfresh
        simp only [hns, if_false]
        exact hdb cache
  refine ⟨hval, ?_, ?_⟩ <;>
  · rcases hvp : validate_api_key db cache key now with ⟨o, c'⟩
    rw [hvp] at hval
    simp only at hval
    subst hval
    simp [require_api_key, hpath, hget, isTruthy, hne, hvp]

/-- When resolution yields no identity, the cache is left untouched (the
write-through only happens on a successful lookup). -/
theorem validate_none_cache (db : DB) (cache : KeyCache) (key : String)
    (now : Nat) (h : (validate_api_key db cache key now).fst = none) :
    (validate_api_key db cache key now).snd = cache := by
  have hdb : ∀ c : KeyCache, (db_lookup db c key now).fst = none →
      (db_lookup db c key now).snd = c := by
    intro c
    simp only [db_lookup]
    cases db.usersLookup key with
    | error e => intro _; rfl
    | ok o =>
        cases o with
        | some row =>
            obtain ⟨k, tier, name, act, uid⟩ := row
            intro hnone
            simp at hnone
        | none =>
            cases db.apiKeysLookup key with
            | error e => intro _; rfl
            | ok o2 =>
                cases o2 with
                | some row =>
                    obtain ⟨k, tier, name, act⟩ := row
                    intro hnone
                    simp at hnone
                | none => intro _; rfl
  revert h
  simp only [validate_api_key]
  by_cases hne : key = ""
  · simp [hne]
  · simp only [if_neg hne]
    cases DEMO_API_KEYS key with
    | some v =>
        obtain ⟨tier, name, act⟩ := v
        by_cases hact : act = true
        · simp [hact]
        · simp [hact]
    | none =>
        cases cache ("apikey_" ++ key) with
        | none => exact hdb cache
        | some p =>
            obtain ⟨i, t⟩ := p
            by_cases hfr : now - t < cache_ttl
            · simp [hfr]
            · simp only [hfr, if_false]
              exact hdb cache

/-- C10 (amended form unnecessary — holds as stated): on an optional-auth
route, a supplied credential that resolution cannot resolve is never
rejected with 401; the request is handled exactly as if no credential had
been supplied: quota is enforced against `anon_<client address>` on the
free tier, and the only possible rejection is a 429. -/
theorem invalid_key_falls_back_anonymous (db : DB) (req : Request)
    (store : RateStore) (cache : KeyCache) (now : Nat) (key : String)
    (hget : get_api_key req = some key) (hne : key ≠ "")
    (hval : (validate_api_key db cache key now).fst = none) :
    optional_api_key db req store cache now
      = optional_api_key db
          { req with header_api_key := none, query_api_key := none }
          store cache now ∧
    (optional_api_key db req store cache now).state.api_key
      = some ("anon_" ++ req.client_ip.getD "unknown") ∧
    (optional_api_key db req store cache now).state.tier = some "free" ∧
    ∀ e, (optional_api_key db req store cache now).result = .error e →
      e.status = 429 := by
  have hcache := validate_none_cache db cache key now hval
  have hanon : optional_api_key db req store cache now
      = optional_anonymous req store cache now := by
    rcases hvp : validate_api_key db cache key now with ⟨o, c'⟩
    rw [hvp] at hval hcache
    simp only at hval hcache
    subst hval
    subst hcache
    simp [optional_api_key, hget, isTruthy, hne, hvp]
  have hanon' : optional_api_key db
      { req with header_api_key := none, query_api_key := none }
      store cache now
      = optional_anonymous req store cache now := by
    simp [optional_api_key, get_api_key, pyOrStr, isTruthy, optional_anonymous]
  refine ⟨by rw [hanon, hanon'], ?_, ?_, ?_⟩ <;> rw [hanon]
  · simp only [optional_anonymous]
    split <;> rfl
  · simp only [optional_anonymous]
    split <;> rfl
  · intro e he
    simp only [optional_anonymous] at he
    split at he
    · simp only at he
      injection he with h
      subst h
      rfl
    · simp only at he
      cases he

/-- Witness for `invalid_key_falls_back_anonymous`: the unknown key
`bogus` on an optional route. -/
theorem invalid_key_falls_back_anonymous_witness :
    optional_api_key dbNoRows reqBogus emptyStore emptyCache 50
      = optional_api_key dbNoRows
          { reqBogus with header_api_key := none, query_api_key := none }
          emptyStore emptyCache 50 ∧
    (optional_api_key dbNoRows reqBogus emptyStore emptyCache 50).state.api_key
      = some ("anon_" ++ reqBogus.client_ip.getD "unknown") ∧
    (optional_api_key dbNoRows reqBogus emptyStore emptyCache 50).state.tier
      = some "free" ∧
    ∀ e, (optional_api_key dbNoRows reqBogus emptyStore emptyCache 50).result
        = .error e → e.status = 429 :=
  invalid_key_falls_back_anonymous dbNoRows reqBogus emptyStore emptyCache 50
    "bogus" rfl (by decide) rfl

/-- C3, counterexample: an identity whose resolved info carries the
user-id `0` is quota-tracked under its raw key string, not under
`user_0` (Python truthiness treats `0` as absent): two credentials
resolving to the same user-id `0` get separate, duplicated quota windows,
and nothing is recorded under a `user_`-derived key. -/
theorem user_id_zero_quota_key_counterexample :
    (validate_api_key dbUid0 emptyCache "rsk_a" 50).fst
      = some ⟨"rsk_a", "free", "U", some true, some 0⟩ ∧
    (validate_api_key dbUid0 emptyCache "rsk_b" 50).fst
      = some ⟨"rsk_b", "free", "U", some true, some 0⟩ ∧
    rate_limit_key_of ⟨"rsk_a", "free", "U", some true, some 0⟩ "rsk_a"
      = "rsk_a" ∧
    rate_limit_key_of ⟨"rsk_b", "free", "U", some true, some 0⟩ "rsk_b"
      = "rsk_b" ∧
    (optional_api_key dbUid0 reqRskB
        (optional_api_key dbUid0 reqRskA emptyStore emptyCache 50).store
        (optional_api_key dbUid0 reqRskA emptyStore emptyCache 50).cache
        60).state.rate_limit_remaining = some (.int 99) ∧
    ((optional_api_key dbUid0 reqRskB
        (optional_api_key dbUid0 reqRskA emptyStore emptyCache 50).store
        (optional_api_key dbUid0 reqRskA emptyStore emptyCache 50).cache
        60).store "rsk_a").count = 1 ∧
    ((optional_api_key dbUid0 reqRskB
        (optional_api_key dbUid0 reqRskA emptyStore emptyCache 50).store
        (optional_api_key dbUid0 reqRskA emptyStore emptyCache 50).cache
        60).store "rsk_b").count = 1 ∧
    ((optional_api_key dbUid0 reqRskB
        (optional_api_key dbUid0 reqRskA emptyStore emptyCache 50).store
        (optional_api_key dbUid0 reqRskA emptyStore emptyCache 50).cache
        60).store "user_0").count = 0 :=
  ⟨rfl, rfl, rfl, rfl, rfl, rfl, rfl, rfl⟩

/-- C3, amended: for every identity whose resolved info carries a
NON-ZERO user-id, quota is tracked under `user_<id>`; two credentials
resolving to the same non-zero user-id share one quota key, so the quota
evolution under either credential is identical (key regeneration neither
resets nor duplicates the window). -/
theorem user_id_quota_key_shared (info1 info2 : KeyInfo) (k1 k2 : String)
    (uid : Int) (h1 : info1.user_id = some uid) (h2 : info2.user_id = some uid)
    (hz : uid ≠ 0) :
    rate_limit_key_of info1 k1 = "user_" ++ toString uid ∧
    rate_limit_key_of info2 k2 = "user_" ++ toString uid ∧
    ∀ (store : RateStore) (tier : String) (now : Nat),
      check_rate_limit store (rate_limit_key_of info1 k1) tier now
        = check_rate_limit store (rate_limit_key_of info2 k2) tier now := by
  have e1 : rate_limit_key_of info1 k1 = "user_" ++ toString uid := by
    simp [rate_limit_key_of, h1, hz]
  have e2 : rate_limit_key_of info2 k2 = "user_" ++ toString uid := by
    simp [rate_limit_key_of, h2, hz]
  exact ⟨e1, e2, fun store tier now => by rw [e1, e2]⟩

/-- Two key infos differing only in the raw key string, same user-id 7. -/
def infoU7a : KeyInfo := ⟨"rsk_old", "developer", "U7", some true, some 7⟩

/-- See `infoU7a`. -/
def infoU7b : KeyInfo := ⟨"rsk_new", "developer", "U7", some true, some 7⟩

/-- Witness for `user_id_quota_key_shared`: a regenerated key with
user-id 7. -/
theorem user_id_quota_key_shared_witness :
    rate_limit_key_of infoU7a "rsk_old" = "user_" ++ toString (7 : Int) ∧
    rate_limit_key_of infoU7b "rsk_new" = "user_" ++ toString (7 : Int) ∧
    ∀ (store : RateStore) (tier : String) (now : Nat),
      check_rate_limit store (rate_limit_key_of infoU7a "rsk_old") tier now
        = check_rate_limit store (rate_limit_key_of infoU7b "rsk_new") tier now :=
  user_id_quota_key_shared infoU7a infoU7b "rsk_old" "rsk_new" 7 rfl rfl
    (by decide)

/-- C2, counterexample: `optional_api_key` ignores the `X-Dashboard`
header.  A dashboard-flagged request with the valid credential
`demo-key-free` through the optional-auth entry point increments the
stored quota count, and at an exhausted window it is rejected with 429. -/
theorem dashboard_optional_counterexample :
    reqDash.dashboard_header = some "true" ∧
    ((optional_api_key dbNoRows reqDash emptyStore emptyCache 50).store
        "demo-key-free").count = 1 ∧
    (optional_api_key dbNoRows reqDash store100 emptyCache 1000).result
      = .error ⟨429, "Rate limit exceeded", []⟩ :=
  ⟨rfl, rfl, rfl⟩

/-- C2, amended: dashboard-flagged requests with a valid credential skip
quota entirely on the REQUIRED-auth entry point (no stored-count change,
no 429, even on an exhausted window); the optional-auth entry point never
consults the dashboard header, behaving identically with or without it. -/
theorem dashboard_bypass_require_only (db : DB) (req : Request)
    (store : RateStore) (cache : KeyCache) (now : Nat) (info : KeyInfo)
    (hpath : req.path ∉ PUBLIC_PATHS)
    (hkey : isTruthy (get_api_key req) = true)
    (hdash : req.dashboard_header = some "true")
    (hval : (validate_api_key db cache ((get_api_key req).getD "") now).fst
              = some info) :
    (require_api_key db req store cache now).result = .ok info ∧
    (require_api_key db req store cache now).store = store ∧
    ∀ d : Option String,
      optional_api_key db { req with dashboard_header := d } store cache now
        = optional_api_key db req store cache now := by
  refine ⟨?_, ?_, fun d => rfl⟩ <;>
  · rcases hvp : validate_api_key db cache ((get_api_key req).getD "") now
      with ⟨o, c'⟩
    rw [hvp] at hval
    simp only at hval
    subst hval
    simp [require_api_key, hpath, hkey, hdash, hvp]

/-- Witness for `dashboard_bypass_require_only`: a dashboard request with
`demo-key-free` against an exhausted window is still admitted and the
store is untouched. -/
theorem dashboard_bypass_require_only_witness :
    (require_api_key dbNoRows reqDash store100 emptyCache 1000).result
      = .ok ⟨"demo-key-free", "free", "Demo Free", some true, none⟩ ∧
    (require_api_key dbNoRows reqDash store100 emptyCache 1000).store
      = store100 ∧
    ∀ d : Option String,
      optional_api_key dbNoRows { reqDash with dashboard_header := d }
          store100 emptyCache 1000
        = optional_api_key dbNoRows reqDash store100 emptyCache 1000 :=
  dashboard_bypass_require_only dbNoRows reqDash store100 emptyCache 1000
    ⟨"demo-key-free", "free", "Demo Free", some true, none⟩
    (by decide) rfl rfl rfl

/-- Witness for `upstream_failure_fails_closed`: a primary-lookup failure
for the unknown key `bogus`. -/
theorem upstream_failure_fails_closed_witness :
    (validate_api_key dbErrPrimary emptyCache "bogus" 50).fst = none ∧
    (require_api_key dbErrPrimary reqBogus emptyStore emptyCache 50).result
      = .error ⟨401, "Invalid API key", [("WWW-Authenticate", "API key invalid")]⟩ ∧
    (require_api_key dbErrPrimary reqBogus emptyStore emptyCache 50).store
      = emptyStore :=
  upstream_failure_fails_closed dbErrPrimary reqBogus emptyStore emptyCache 50
    "bogus" (by decide) rfl (by decide) rfl rfl (Or.inl rfl)

/-- When the request state carries quota info, the middleware emits the
`X-RateLimit-Reset` header with the recorded reset time. -/
theorem middleware_reset_header (req : Request) (resp : Response)
    (st : RequestState) (x : PyNum) (hx : st.rate_limit_remaining = some x) :
    lookupHeader (middleware_finalize req resp st).fst.headers
        "X-RateLimit-Reset"
      = some (toString ((st.rate_limit_reset).getD 0)) := by
  simp [middleware_finalize, hx, lookupHeader, List.find?]

/-- Any rejection raised by the anonymous tail of `optional_api_key` is a
429 whose recorded reset time is the live reset time of a stored window. -/
theorem optional_anonymous_429_state (req : Request) (store : RateStore)
    (cache : KeyCache) (now : Nat) :
    ∀ e, (optional_anonymous req store cache now).result = .error e →
      ∃ r k, ((optional_anonymous req store cache now).state.rate_limit_remaining).isSome
          = true ∧
        (optional_anonymous req store cache now).state.rate_limit_reset = some r ∧
        ((optional_anonymous req store cache now).store k).reset_at = r ∧
        ¬ now > r := by
  simp only [optional_anonymous]
  split
  · intro e _
    refine ⟨(check_rate_limit store ("anon_" ++ req.client_ip.getD "unknown")
        "free" now).fst.reset_at,
      "anon_" ++ req.client_ip.getD "unknown", rfl, rfl, ?_, ?_⟩
    · exact check_reset_written store _ "free" now
    · exact check_reset_not_past store _ "free" now
  · intro e he
    simp at he

/-- Any 429 rejection raised by `require_api_key` leaves the request state
carrying quota info whose reset time is the live reset time of a stored
window. -/
theorem require_429_state (db : DB) (req : Request) (store : RateStore)
    (cache : KeyCache) (now : Nat) :
    ∀ e, (require_api_key db req store cache now).result = .error e →
      e.status = 429 →
      ∃ r k, ((require_api_key db req store cache now).state.rate_limit_remaining).isSome
          = true ∧
        (require_api_key db req store cache now).state.rate_limit_reset = some r ∧
        ((require_api_key db req store cache now).store k).reset_at = r ∧
        ¬ now > r := by
  simp only [require_api_key]
  split
  · intro e he
    simp at he
  · split
    · intro e he h429
      simp only at he
      injection he with h
      subst h
      simp at h429
    · split
      · intro e he h429
        simp only at he
        injection he with h
        subst h
        simp at h429
      · split
        · intro e he
          simp at he
        · split
          · intro e _ _
            exact ⟨_, _, rfl, rfl, check_reset_written _ _ _ _,
              check_reset_not_past _ _ _ _⟩
          · intro e he
            simp at he

/-- Any 429 rejection raised by `optional_api_key` leaves the request
state carrying quota info whose reset time is the live reset time of a
stored window. -/
theorem optional_429_state (db : DB) (req : Request) (store : RateStore)
    (cache : KeyCache) (now : Nat) :
    ∀ e, (optional_api_key db req store cache now).result = .error e →
      ∃ r k, ((optional_api_key db req store cache now).state.rate_limit_remaining).isSome
          = true ∧
        (optional_api_key db req store cache now).state.rate_limit_reset = some r ∧
        ((optional_api_key db req store cache now).store k).reset_at = r ∧
        ¬ now > r := by
  simp only [optional_api_key]
  split
  · split
    · split
      · intro e _
        exact ⟨_, _, rfl, rfl, check_reset_written _ _ _ _,
          check_reset_not_past _ _ _ _⟩
      · intro e he
        simp at he
    · exact optional_anonymous_429_state req store _ now
  · exact optional_anonymous_429_state req store cache now

/-- C4: every 429 produced by the auth layer — required-auth, optional-auth
with a valid key, or anonymous optional-auth — reaches the client with the
`X-RateLimit-Reset` header carrying the live reset time of the denying
quota window (the middleware attaches it from the request state even where
the raised exception itself has no reset headers). -/
theorem quota_429_carries_reset (db : DB) (req : Request) (store : RateStore)
    (cache : KeyCache) (now hstatus : Nat) :
    (∀ e, (require_pipeline db req store cache now hstatus).auth = .error e →
      e.status = 429 →
      ∃ r k, lookupHeader
          (require_pipeline db req store cache now hstatus).response.headers
          "X-RateLimit-Reset" = some (toString r) ∧
        ((require_pipeline db req store cache now hstatus).store k).reset_at = r ∧
        ¬ now > r) ∧
    (∀ e, (optional_pipeline db req store cache now hstatus).auth = .error e →
      e.status = 429 →
      ∃ r k, lookupHeader
          (optional_pipeline db req store cache now hstatus).response.headers
          "X-RateLimit-Reset" = some (toString r) ∧
        ((optional_pipeline db req store cache now hstatus).store k).reset_at = r ∧
        ¬ now > r) := by
  constructor
  · intro e he h429
    have he' : (require_api_key db req store cache now).result = .error e := he
    obtain ⟨r, k, h1, h2, h3, h4⟩ :=
      require_429_state db req store cache now e he' h429
    obtain ⟨x, hx⟩ := Option.isSome_iff_exists.mp h1
    refine ⟨r, k, ?_, h3, h4⟩
    have hh := middleware_reset_header req
      (match (require_api_key db req store cache now).result with
       | .error err => ⟨err.status, err.detail, err.headers⟩
       | .ok _ => ⟨hstatus, "", []⟩)
      (require_api_key db req store cache now).state x hx
    rw [h2] at hh
    exact hh
  · intro e he h429
    have he' : (optional_api_key db req store cache now).result = .error e := he
    obtain ⟨r, k, h1, h2, h3, h4⟩ :=
      optional_429_state db req store cache now e he'
    obtain ⟨x, hx⟩ := Option.isSome_iff_exists.mp h1
    refine ⟨r, k, ?_, h3, h4⟩
    have hh := middleware_reset_header req
      (match (optional_api_key db req store cache now).result with
       | .error err => ⟨err.status, err.detail, err.headers⟩
       | .ok _ => ⟨hstatus, "", []⟩)
      (optional_api_key db req store cache now).state x hx
    rw [h2] at hh
    exact hh

/-- Witness for `quota_429_carries_reset`: an anonymous optional-auth 429
(the path whose raised exception itself carries no headers). -/
theorem quota_429_carries_reset_witness :
    ∃ r k, lookupHeader
        (optional_pipeline dbNoRows reqAnonPlain store100 emptyCache 1000
          200).response.headers
        "X-RateLimit-Reset" = some (toString r) ∧
      ((optional_pipeline dbNoRows reqAnonPlain store100 emptyCache 1000
          200).store k).reset_at = r ∧
      ¬ 1000 > r :=
  (quota_429_carries_reset dbNoRows reqAnonPlain store100 emptyCache 1000
      200).2
    ⟨429, "Rate limit exceeded. Get an API key for higher limits.", []⟩
    rfl rfl

/-- C8, counterexample: the middleware's recording predicate is "a
credential was supplied and the request is not dashboard-flagged", not
"the request is neither dashboard-flagged nor public-bypassed": a
completed anonymous request to a non-public route is never recorded, and a
credentialed request to a public-bypass path is recorded. -/
theorem usage_logging_counterexample :
    reqAnonPlain.path ∉ PUBLIC_PATHS ∧
    reqAnonPlain.dashboard_header ≠ some "true" ∧
    (optional_pipeline dbNoRows reqAnonPlain emptyStore emptyCache 50
        200).response.status = 200 ∧
    (optional_pipeline dbNoRows reqAnonPlain emptyStore emptyCache 50
        200).logged = false ∧
    reqPubKeyed.path ∈ PUBLIC_PATHS ∧
    reqPubKeyed.dashboard_header ≠ some "true" ∧
    (require_pipeline dbNoRows reqPubKeyed emptyStore emptyCache 50
        200).logged = true :=
  ⟨by decide, by decide, rfl, rfl, by decide, by decide, rfl⟩

/-- C8, amended: on both entry points, usage recording is invoked exactly
for requests that supplied a credential (header or query parameter) and
are not dashboard-flagged — whatever the response status and whether or
not the path is public-bypassed; credential-less requests are never
recorded. -/
theorem usage_logging_rule (db : DB) (req : Request) (store : RateStore)
    (cache : KeyCache) (now hstatus : Nat) :
    (require_pipeline db req store cache now hstatus).logged
      = (isTruthy (pyOrStr req.header_api_key req.query_api_key)
          && !(req.dashboard_header = some "true")) ∧
    (optional_pipeline db req store cache now hstatus).logged
      = (isTruthy (pyOrStr req.header_api_key req.query_api_key)
          && !(req.dashboard_header = some "true")) :=
  ⟨rfl, rfl⟩

end RoadSafety
